import Mathlib

/-!
Shallow embedding of `src/lib/SqsHeavyLifter.js`.

The dispatcher validates construction options, computes the total size of an
outgoing message (body plus attributes), and routes each send either directly
to the queue or through the blob store (offload path, pointer message).

Modelling conventions:
* A JavaScript string is a list of Unicode code points (`List Nat`);
  `Buffer.byteLength(s, 'utf8')` is `utf8Len`.
* `undefined` values are `Option.none`.
* A JavaScript number that may be `NaN` is `JNum` (`NaN` poisons addition and
  makes every `>` comparison false, as in JS).
* The external collaborators (AWS SQS / S3 clients, the uuid generator) are an
  environment: a stream of generated keys indexed by call number and, per
  call, the outcome each collaborator would return if invoked.  A call's
  observable behaviour is a `CallResult`: the returned value or error plus
  the list of blob-store and queue invocations it performed.
-/

namespace SHL

/-- UTF-8 encoded length of a single Unicode code point. -/
def utf8CharLen (c : Nat) : Nat :=
  if c < 0x80 then 1
  else if c < 0x800 then 2
  else if c < 0x10000 then 3
  else 4

/-- UTF-8 byte length of a string given as its list of code points. -/
def utf8Len (s : List Nat) : Nat :=
  (s.map utf8CharLen).sum

/-- `getStringSizeInBytes(value)`: `Buffer.byteLength(value || '', 'utf8')`;
an `undefined` value is replaced by the empty string. -/
def getStringSizeInBytes (value : Option (List Nat)) : Nat :=
  utf8Len (value.getD [])

/-- The possible shapes of a `BinaryValue` (per the source comment: Buffer,
Typed Array, Blob, String).  `undef` covers an absent/falsy value; `obj`
carries the `byteLength`, `length` and `size` properties an object may or
may not have (`none` = the property is `undefined`). -/
inductive BinaryValue where
  | undef : BinaryValue
  | str : List Nat → BinaryValue
  | obj : Option Nat → Option Nat → Option Nat → BinaryValue
  deriving DecidableEq, Repr

/-- JavaScript `a || b` on number-or-undefined values: the left operand if it
is truthy (a non-zero number), otherwise the right operand. -/
def jsOrNum : Option Nat → Option Nat → Option Nat
  | some n, b => if n = 0 then b else some n
  | none, b => b

/-- `getBinarySizeInBytes(value)`.  Returns `none` when the JS expression
evaluates to `undefined` (all three properties absent or falsy, as happens
for a zero-length Buffer or TypedArray). -/
def getBinarySizeInBytes : BinaryValue → Option Nat
  | .undef => some 0
  | .str s => if s.isEmpty then some 0 else some (utf8Len s)
  | .obj byteLength length size => jsOrNum byteLength (jsOrNum length size)

/-- A message attribute: `DataType`, optional `StringValue`, `BinaryValue`. -/
structure MessageAttribute where
  DataType : Option (List Nat)
  StringValue : Option (List Nat)
  BinaryValue : BinaryValue
  deriving DecidableEq, Repr

/-- A JS number arising in the size accounting: a natural or `NaN`. -/
inductive JNum where
  | nan : JNum
  | num : Nat → JNum
  deriving DecidableEq, Repr

/-- JS addition of an accumulator and a number-or-undefined operand:
adding `undefined` (or adding to `NaN`) yields `NaN`. -/
def jAddOpt : JNum → Option Nat → JNum
  | .nan, _ => .nan
  | .num _, none => .nan
  | .num a, some b => .num (a + b)

/-- JS addition of a plain natural and a possibly-`NaN` number. -/
def jAddNat (a : Nat) : JNum → JNum
  | .nan => .nan
  | .num b => .num (a + b)

/-- JS `x > t` where `x` may be `NaN`: false on `NaN`. -/
def jGt (x : JNum) (t : Int) : Bool :=
  match x with
  | .nan => false
  | .num n => (n : Int) > t

/-- The attributes collection: an ordered keyed collection of entries. -/
abbrev Attrs : Type := List (List Nat × MessageAttribute)

/-- Per-entry summand of `getMessageAttributesSize`: name size + `DataType`
size + `StringValue` size + binary size; `undefined` binary size makes the
whole summand behave as `undefined` in the subsequent JS addition. -/
def attrEntrySize (name : List Nat) (attr : MessageAttribute) : Option Nat :=
  (getBinarySizeInBytes attr.BinaryValue).map
    (fun b =>
      getStringSizeInBytes (some name)
        + getStringSizeInBytes attr.DataType
        + getStringSizeInBytes attr.StringValue
        + b)

/-- `getMessageAttributesSize(messageAttributes)`: reduce over the entries,
accumulating with JS addition starting from `0`. -/
def getMessageAttributesSize (messageAttributes : Attrs) : JNum :=
  messageAttributes.foldl
    (fun acc e => jAddOpt acc (attrEntrySize e.1 e.2)) (.num 0)

/-- An outgoing message body: whether JS considers it falsy, and the code
points of its `JSON.stringify` serialization. -/
structure Message where
  falsy : Bool
  json : List Nat
  deriving DecidableEq, Repr

/-- `getMessageSize(message)`: byte length of `JSON.stringify(message)`. -/
def getMessageSize (message : Message) : Nat :=
  getStringSizeInBytes (some message.json)

/-- `getTotalMessageSize(message, messageAttributes)`.  When the attributes
argument is `undefined`, `Object.keys(undefined)` throws a `TypeError`,
modelled as `Except.error ()`. -/
def getTotalMessageSize (message : Message) :
    Option Attrs → Except Unit JNum
  | none => .error ()
  | some attrs => .ok (jAddNat (getMessageSize message) (getMessageAttributesSize attrs))

/-- `MAX_MESSAGE_SIZE` (256 KB). -/
def MAX_MESSAGE_SIZE : Int := 262144

/-- `MAX_MESSAGE_ATTRIBUTES`. -/
def MAX_MESSAGE_ATTRIBUTES : Nat := 10

/-- A supplied `bucketName` option: a string, or a non-string value with the
given truthiness. -/
inductive BucketOpt where
  | str : List Nat → BucketOpt
  | other : Bool → BucketOpt
  deriving DecidableEq, Repr

/-- JS truthiness of a supplied bucket value. -/
def BucketOpt.truthy : BucketOpt → Bool
  | .str s => !s.isEmpty
  | .other t => t

/-- `typeof value === 'string'` for a supplied bucket value. -/
def BucketOpt.isString : BucketOpt → Bool
  | .str _ => true
  | .other _ => false

/-- A supplied `maxMessageSize` option: a (possibly non-positive) number,
`NaN`, or a non-number value with the given truthiness. -/
inductive SizeOpt where
  | num : Int → SizeOpt
  | nan : SizeOpt
  | other : Bool → SizeOpt
  deriving DecidableEq, Repr

/-- JS truthiness of a supplied threshold value (`0` and `NaN` are falsy). -/
def SizeOpt.truthy : SizeOpt → Bool
  | .num n => n != 0
  | .nan => false
  | .other t => t

/-- `typeof value === 'number'` for a supplied threshold value. -/
def SizeOpt.isNumber : SizeOpt → Bool
  | .num _ => true
  | .nan => true
  | .other _ => false

/-- `value <= 0` for a supplied threshold value (`NaN <= 0` is false). -/
def SizeOpt.le0 : SizeOpt → Bool
  | .num n => n ≤ 0
  | .nan => false
  | .other _ => false

/-- Numeric value stored when the supplied threshold is kept (`num` case;
the other cases are unreachable after validation and truthiness check). -/
def SizeOpt.val : SizeOpt → Int
  | .num n => n
  | .nan => 0
  | .other _ => 0

/-- Constructor options (`none` = option not supplied / `undefined`). -/
structure Options where
  queueUrl : Option (List Nat)
  bucketName : Option BucketOpt
  maxMessageSize : Option SizeOpt
  alwaysS3 : Bool
  deriving DecidableEq, Repr

/-- The validated dispatcher configuration stored on `this`. -/
structure Config where
  queueUrl : List Nat
  bucketName : Option BucketOpt
  alwaysS3 : Bool
  maxMessageSize : Int
  deriving DecidableEq, Repr

/-- The constructor's `ConfigurationError`s, one per `throw` site. -/
inductive ConfigErr where
  | queueUrlRequired : ConfigErr
  | bucketNameMustBeString : ConfigErr
  | maxMessageSizeMustBePositive : ConfigErr
  deriving DecidableEq, Repr

/-- JS truthiness of the supplied `queueUrl` (absent or empty is falsy). -/
def queueUrlTruthy : Option (List Nat) → Bool
  | none => false
  | some q => !q.isEmpty

/-- The `options.bucketName && typeof options.bucketName !== 'string'`
guard of the constructor. -/
def bucketNameInvalid : Option BucketOpt → Bool
  | none => false
  | some b => b.truthy && !b.isString

/-- The `options.maxMessageSize && (typeof ... !== 'number' || ... <= 0)`
guard of the constructor. -/
def maxMessageSizeInvalid : Option SizeOpt → Bool
  | none => false
  | some v => v.truthy && (!v.isNumber || v.le0)

/-- The `SqsHeavyLifter` constructor: validation and defaulting. -/
def construct (options : Options) : Except ConfigErr Config :=
  if !queueUrlTruthy options.queueUrl then
    .error .queueUrlRequired
  else if bucketNameInvalid options.bucketName then
    .error .bucketNameMustBeString
  else if maxMessageSizeInvalid options.maxMessageSize then
    .error .maxMessageSizeMustBePositive
  else
    .ok
      { queueUrl := options.queueUrl.getD []
        bucketName := options.bucketName
        alwaysS3 := options.alwaysS3
        maxMessageSize :=
          match options.maxMessageSize with
          | some v => if v.truthy then v.val else MAX_MESSAGE_SIZE
          | none => MAX_MESSAGE_SIZE }

/-- Payload handed to the queue collaborator: either the serialized original
body (direct path) or the two-field pointer record (offload path). -/
inductive Payload where
  | raw : List Nat → Payload
  | pointer : Option BucketOpt → List Nat → Payload
  deriving DecidableEq, Repr

/-- One `putObject` invocation observed at the blob collaborator. -/
structure S3Put where
  Bucket : Option BucketOpt
  Key : List Nat
  Body : List Nat
  deriving DecidableEq, Repr

/-- One `sendMessage` invocation observed at the queue collaborator. -/
structure SqsSend where
  QueueUrl : List Nat
  MessageBody : Payload
  MessageAttributes : Option Attrs
  deriving DecidableEq, Repr

/-- Errors a call can surface, tagged by origin: the two synchronous
`InputError` throws of `sendMessage`, the `TypeError` thrown by
`Object.keys(undefined)` inside the size computation, the offload-path
blob-write failure (wrapping the storage error), and the queue-send failure
(wrapping the queue-service error). -/
inductive SendErr where
  | inputMessageRequired : SendErr
  | inputTooManyAttributes : SendErr
  | typeError : SendErr
  | offload : Nat → SendErr
  | send : Nat → SendErr
  deriving DecidableEq, Repr

deriving instance DecidableEq for Except

/-- Observable outcome of one call: the value returned / error thrown, and
the invocations performed at each collaborator, in order. -/
structure CallResult where
  result : Except SendErr Nat
  s3Calls : List S3Put
  sqsCalls : List SqsSend
  deriving DecidableEq, Repr

/-- The external world: the uuid stream (draw for call number `i`), and the
outcome each collaborator returns for call number `i` if invoked. -/
structure Env where
  keys : Nat → List Nat
  s3Result : Nat → Except Nat Unit
  sqsResult : Nat → Except Nat Nat

/-- `_sendToSQS(message, messageAttributes)`: one queue invocation; failure
surfaces as a `send` error. -/
def sendToSQS (cfg : Config) (sqsRes : Except Nat Nat)
    (payload : Payload) (messageAttributes : Option Attrs) : CallResult :=
  { result :=
      match sqsRes with
      | .error e => .error (.send e)
      | .ok r => .ok r
    s3Calls := []
    sqsCalls := [⟨cfg.queueUrl, payload, messageAttributes⟩] }

/-- `_sendThroughS3(message, messageAttributes)`: generate a key, write the
serialized body to the blob store; only on success construct the pointer
message and send it to the queue.  A blob failure surfaces as an `offload`
error with no queue invocation. -/
def sendThroughS3 (cfg : Config) (objectKey : List Nat)
    (s3Res : Except Nat Unit) (sqsRes : Except Nat Nat)
    (message : Message) (messageAttributes : Option Attrs) : CallResult :=
  let put : S3Put := ⟨cfg.bucketName, objectKey, message.json⟩
  match s3Res with
  | .error e => { result := .error (.offload e), s3Calls := [put], sqsCalls := [] }
  | .ok _ =>
      let rest := sendToSQS cfg sqsRes
        (.pointer cfg.bucketName objectKey) messageAttributes
      { result := rest.result, s3Calls := [put], sqsCalls := rest.sqsCalls }

/-- Entry count of the attributes argument as `sendMessage` checks it
(`messageAttributes && Object.keys(messageAttributes).length`). -/
def attrCount : Option Attrs → Nat
  | none => 0
  | some l => l.length

/-- `sendMessage(message, messageAttributes)` for call number `i`:
input validation, then `alwaysS3 || totalSize > maxMessageSize` routing
(the size is only computed when `alwaysS3` is falsy; computing it with
absent attributes throws a `TypeError`). -/
def sendMessage (cfg : Config) (env : Env) (i : Nat)
    (message : Message) (messageAttributes : Option Attrs) : CallResult :=
  if message.falsy then
    { result := .error .inputMessageRequired, s3Calls := [], sqsCalls := [] }
  else if attrCount messageAttributes > MAX_MESSAGE_ATTRIBUTES then
    { result := .error .inputTooManyAttributes, s3Calls := [], sqsCalls := [] }
  else if cfg.alwaysS3 then
    sendThroughS3 cfg (env.keys i) (env.s3Result i) (env.sqsResult i)
      message messageAttributes
  else
    match getTotalMessageSize message messageAttributes with
    | .error _ =>
        { result := .error .typeError, s3Calls := [], sqsCalls := [] }
    | .ok sz =>
        if jGt sz cfg.maxMessageSize then
          sendThroughS3 cfg (env.keys i) (env.s3Result i) (env.sqsResult i)
            message messageAttributes
        else
          sendToSQS cfg (env.sqsResult i) (.raw message.json) messageAttributes

/-- The call performed at least one blob-store write (offload path). -/
def routedOffload (r : CallResult) : Bool :=
  !r.s3Calls.isEmpty

/-- The call went straight to the queue: no blob-store write, exactly one
queue invocation. -/
def routedDirect (r : CallResult) : Bool :=
  r.s3Calls.isEmpty && r.sqsCalls.length == 1

end SHL

namespace SHL

/-! ## Concrete fixtures used by witnesses and counterexamples -/

/-- The body `{x: 1}`: truthy, serializing to the 7 code points of
the text left-brace, quote, x, quote, colon, 1, right-brace. -/
def msgX : Message := ⟨false, [123, 34, 120, 34, 58, 49, 125]⟩

/-- An environment whose collaborators always succeed and whose uuid stream
yields the singleton string of the call number. -/
def envOk : Env := ⟨fun n => [n], fun _ => .ok (), fun _ => .ok 0⟩

/-- An environment whose blob write fails with storage error `7`. -/
def envS3Fail : Env := ⟨fun n => [n], fun _ => .error 7, fun _ => .ok 0⟩

/-- A configuration with threshold 10 and no forced offload. -/
def cfgTen : Config := ⟨[113], none, false, 10⟩

/-- A configuration with `alwaysS3` set and no bucket configured. -/
def cfgAlways : Config := ⟨[113], none, true, 262144⟩

/-- Options supplying a queue url and threshold 10. -/
def optsTen : Options := ⟨some [113], none, some (.num 10), false⟩

/-- Options supplying a queue url and `alwaysS3`, no bucket, no threshold. -/
def optsAlways : Options := ⟨some [113], none, none, true⟩

/-- An attribute whose binary value is a zero-length byte buffer
(`byteLength` 0, `length` 0, no `size` property). -/
def emptyBufAttr : MessageAttribute := ⟨some [66], none, .obj (some 0) (some 0) none⟩

/-- A body serializing to twelve ASCII characters (12 bytes). -/
def bigMsg : Message := ⟨false, List.replicate 12 97⟩

/-- Eleven attribute entries. -/
def attrs11 : Attrs := List.replicate 11 ([97], ⟨none, none, .undef⟩)

/-! ## Shared helper lemmas -/

/-- Every offload execution records exactly one blob write. -/
theorem routedOffload_sendThroughS3 (cfg : Config) (k : List Nat)
    (s3Res : Except Nat Unit) (sqsRes : Except Nat Nat)
    (m : Message) (attrs : Option Attrs) :
    routedOffload (sendThroughS3 cfg k s3Res sqsRes m attrs) = true := by
  cases s3Res <;> rfl

/-- A direct queue send records no blob write and one queue invocation. -/
theorem routedDirect_sendToSQS (cfg : Config) (sqsRes : Except Nat Nat)
    (p : Payload) (attrs : Option Attrs) :
    routedDirect (sendToSQS cfg sqsRes p attrs) = true := rfl

/-- When validation passes and either `alwaysS3` is set or the computed size
strictly exceeds the threshold, `sendMessage` behaves as `_sendThroughS3`. -/
theorem sendMessage_offload_eq (cfg : Config) (env : Env) (i : Nat)
    (m : Message) (attrs : Option Attrs)
    (hm : m.falsy = false) (hc : attrCount attrs ≤ MAX_MESSAGE_ATTRIBUTES)
    (hroute : cfg.alwaysS3 = true ∨ ∃ n : Nat,
      getTotalMessageSize m attrs = .ok (.num n) ∧
      cfg.maxMessageSize < (n : Int)) :
    sendMessage cfg env i m attrs =
      sendThroughS3 cfg (env.keys i) (env.s3Result i) (env.sqsResult i)
        m attrs := by
  have hgt : ¬ attrCount attrs > MAX_MESSAGE_ATTRIBUTES := by omega
  by_cases halw : cfg.alwaysS3 = true
  · simp [sendMessage, hm, hgt, halw]
  · rcases hroute with h | ⟨n, hsz, hlt⟩
    · exact absurd h halw
    · simp [sendMessage, hm, hgt, halw, hsz, jGt, hlt]

/-- When validation passes, `alwaysS3` is unset and the computed size is a
number not exceeding the threshold, `sendMessage` is a direct queue send. -/
theorem sendMessage_direct_eq (cfg : Config) (env : Env) (i : Nat)
    (m : Message) (attrs : Option Attrs) (n : Nat)
    (hm : m.falsy = false) (hc : attrCount attrs ≤ MAX_MESSAGE_ATTRIBUTES)
    (halw : cfg.alwaysS3 = false)
    (hsz : getTotalMessageSize m attrs = .ok (.num n))
    (hle : (n : Int) ≤ cfg.maxMessageSize) :
    sendMessage cfg env i m attrs =
      sendToSQS cfg (env.sqsResult i) (.raw m.json) attrs := by
  have hgt : ¬ attrCount attrs > MAX_MESSAGE_ATTRIBUTES := by omega
  have hngt : ¬ cfg.maxMessageSize < (n : Int) := by omega
  simp [sendMessage, hm, hgt, halw, hsz, jGt, hngt]

/-- The constructor stores the supplied bucket option unchanged. -/
theorem construct_bucketName (o : Options) (cfg : Config)
    (ho : construct o = .ok cfg) : cfg.bucketName = o.bucketName := by
  unfold construct at ho
  split at ho
  · exact absurd ho (by simp)
  · split at ho
    · exact absurd ho (by simp)
    · split at ho
      · exact absurd ho (by simp)
      · cases ho
        rfl

/-- Every blob write performed by a call uses the uuid drawn for that call
number as its object key. -/
theorem s3Put_key (cfg : Config) (env : Env) (i : Nat)
    (m : Message) (attrs : Option Attrs) (p : S3Put)
    (hp : p ∈ (sendMessage cfg env i m attrs).s3Calls) :
    p.Key = env.keys i := by
  unfold sendMessage at hp
  split at hp
  · simp at hp
  · split at hp
    · simp at hp
    · have hput : ∀ s3Res sqsRes,
          p ∈ (sendThroughS3 cfg (env.keys i) s3Res sqsRes m attrs).s3Calls →
          p.Key = env.keys i := by
        intro s3Res sqsRes hmem
        cases s3Res <;>
          simp [sendThroughS3, sendToSQS] at hmem <;>
          simp [hmem]
      split at hp
      · exact hput _ _ hp
      · split at hp
        · simp [sendToSQS] at hp
        · split at hp
          · exact hput _ _ hp
          · simp [sendToSQS] at hp

end SHL

namespace SHL

/-! ## Claim theorems -/

/-- Claim C1: for a call with a present body and at most 10 attributes,
if `alwaysS3` (force offload) is set, the call routes to the offload path;
if it is unset and the computed total size is a number `n`, then `n` not
exceeding the threshold routes direct (the boundary is inclusive) and `n`
strictly above the threshold routes offload. -/
theorem C1_routing_rule (cfg : Config) (env : Env) (i : Nat)
    (m : Message) (attrs : Option Attrs)
    (hm : m.falsy = false) (hc : attrCount attrs ≤ MAX_MESSAGE_ATTRIBUTES) :
    (cfg.alwaysS3 = true →
      routedOffload (sendMessage cfg env i m attrs) = true) ∧
    (∀ n : Nat, cfg.alwaysS3 = false →
      getTotalMessageSize m attrs = .ok (.num n) →
      (((n : Int) ≤ cfg.maxMessageSize →
        routedDirect (sendMessage cfg env i m attrs) = true) ∧
       (cfg.maxMessageSize < (n : Int) →
        routedOffload (sendMessage cfg env i m attrs) = true))) := by
  refine ⟨fun halw => ?_, fun n halw hsz => ⟨fun hle => ?_, fun hlt => ?_⟩⟩
  · rw [sendMessage_offload_eq cfg env i m attrs hm hc (Or.inl halw)]
    exact routedOffload_sendThroughS3 ..
  · rw [sendMessage_direct_eq cfg env i m attrs n hm hc halw hsz hle]
    exact routedDirect_sendToSQS ..
  · rw [sendMessage_offload_eq cfg env i m attrs hm hc (Or.inr ⟨n, hsz, hlt⟩)]
    exact routedOffload_sendThroughS3 ..

/-- Witness for C1 at a concrete boundary input: threshold 10, the 7-byte
body `{x:1}` with an empty attributes object computes size 7 and routes
direct. -/
theorem C1_routing_rule_witness :
    msgX.falsy = false ∧
    attrCount (some []) ≤ MAX_MESSAGE_ATTRIBUTES ∧
    cfgTen.alwaysS3 = false ∧
    getTotalMessageSize msgX (some []) = .ok (.num 7) ∧
    ((7 : Int) ≤ cfgTen.maxMessageSize) ∧
    routedDirect (sendMessage cfgTen envOk 0 msgX (some [])) = true := by
  refine ⟨rfl, by decide, rfl, by decide, by decide, ?_⟩
  exact ((C1_routing_rule cfgTen envOk 0 msgX (some []) rfl (by decide)).2
    7 rfl (by decide)).1 (by decide)

/-- Claim C2 (evaluation at the failing input): constructing with threshold
10 succeeds, but calling `sendMessage` with the body `{x: 1}` and NO
attributes argument throws a `TypeError` (`Object.keys(undefined)`) before
any collaborator is contacted — the call does not reach the direct path. -/
theorem C2_absent_attributes_crash :
    construct optsTen = .ok cfgTen ∧
    sendMessage cfgTen envOk 0 msgX none =
      { result := .error .typeError, s3Calls := [], sqsCalls := [] } := by
  exact ⟨rfl, rfl⟩

/-- Claim C3: on an offload-path call whose blob write fails with storage
error `e`, the queue collaborator is never invoked and the surfaced error is
the offload error wrapping `e`. -/
theorem C3_blob_failure_no_queue (cfg : Config) (env : Env) (i : Nat)
    (m : Message) (attrs : Option Attrs) (e : Nat)
    (hm : m.falsy = false) (hc : attrCount attrs ≤ MAX_MESSAGE_ATTRIBUTES)
    (hroute : cfg.alwaysS3 = true ∨ ∃ n : Nat,
      getTotalMessageSize m attrs = .ok (.num n) ∧
      cfg.maxMessageSize < (n : Int))
    (hs3 : env.s3Result i = .error e) :
    (sendMessage cfg env i m attrs).sqsCalls = [] ∧
    (sendMessage cfg env i m attrs).result = .error (.offload e) := by
  rw [sendMessage_offload_eq cfg env i m attrs hm hc hroute]
  simp [sendThroughS3, hs3]

/-- Witness for C3: forced offload with a failing blob store — no queue
call, offload error 7 surfaced. -/
theorem C3_blob_failure_no_queue_witness :
    msgX.falsy = false ∧
    attrCount (some []) ≤ MAX_MESSAGE_ATTRIBUTES ∧
    cfgAlways.alwaysS3 = true ∧
    envS3Fail.s3Result 0 = .error 7 ∧
    (sendMessage cfgAlways envS3Fail 0 msgX (some [])).sqsCalls = [] ∧
    (sendMessage cfgAlways envS3Fail 0 msgX (some [])).result =
      .error (.offload 7) := by
  refine ⟨rfl, by decide, rfl, rfl, ?_⟩
  exact C3_blob_failure_no_queue cfgAlways envS3Fail 0 msgX (some []) 7
    rfl (by decide) (Or.inl rfl) rfl

/-- Claim C4 counterexample: supplying the threshold `0` (not a positive
numeric value) does NOT fail construction; the zero is falsy, so the guard
is skipped and the threshold silently defaults to 262144. -/
theorem C4_zero_threshold_counterexample :
    construct ⟨some [113], none, some (.num 0), false⟩ =
      .ok ⟨[113], none, false, 262144⟩ := rfl

/-- Claim C4 (amended): with valid queue url and bucket, a truthy supplied
threshold that is not a positive number fails construction; a falsy supplied
threshold (zero or NaN) is treated like an unset one and defaults to
262144, as does an absent one; a positive numeric threshold is kept. -/
theorem C4_threshold_validation (o : Options)
    (hq : queueUrlTruthy o.queueUrl = true)
    (hb : bucketNameInvalid o.bucketName = false) :
    (o.maxMessageSize = none →
      ∃ cfg, construct o = .ok cfg ∧ cfg.maxMessageSize = MAX_MESSAGE_SIZE) ∧
    (∀ v, o.maxMessageSize = some v → v.truthy = false →
      ∃ cfg, construct o = .ok cfg ∧ cfg.maxMessageSize = MAX_MESSAGE_SIZE) ∧
    (∀ v, o.maxMessageSize = some v → v.truthy = true →
      (v.isNumber = false ∨ v.le0 = true) →
      construct o = .error .maxMessageSizeMustBePositive) ∧
    (∀ n : Int, o.maxMessageSize = some (.num n) → 0 < n →
      ∃ cfg, construct o = .ok cfg ∧ cfg.maxMessageSize = n) := by
  refine ⟨fun hnone => ?_, fun v hv hvf => ?_, fun v hv hvt hbad => ?_,
    fun n hn hpos => ?_⟩
  · have h : construct o =
        .ok ⟨o.queueUrl.getD [], o.bucketName, o.alwaysS3,
          MAX_MESSAGE_SIZE⟩ := by
      simp [construct, hq, hb, maxMessageSizeInvalid, hnone]
    exact ⟨_, h, rfl⟩
  · have h : construct o =
        .ok ⟨o.queueUrl.getD [], o.bucketName, o.alwaysS3,
          MAX_MESSAGE_SIZE⟩ := by
      simp [construct, hq, hb, maxMessageSizeInvalid, hv, hvf]
    exact ⟨_, h, rfl⟩
  · have hinv : maxMessageSizeInvalid o.maxMessageSize = true := by
      rcases hbad with h | h <;>
        simp [maxMessageSizeInvalid, hv, hvt, h]
    simp [construct, hq, hb, hinv]
  · have hvt : SizeOpt.truthy (.num n) = true := by
      simp [SizeOpt.truthy]
      omega
    have hinv : maxMessageSizeInvalid (some (.num n)) = false := by
      simp [maxMessageSizeInvalid, SizeOpt.truthy, SizeOpt.isNumber,
        SizeOpt.le0]
      omega
    have h : construct o =
        .ok ⟨o.queueUrl.getD [], o.bucketName, o.alwaysS3, n⟩ := by
      simp [construct, hq, hb, hn, hinv, hvt, SizeOpt.val]
    exact ⟨_, h, rfl⟩

/-- Witness for C4 (amended): a supplied positive threshold 10 is kept. -/
theorem C4_threshold_validation_witness :
    queueUrlTruthy optsTen.queueUrl = true ∧
    bucketNameInvalid optsTen.bucketName = false ∧
    ∃ cfg, construct optsTen = .ok cfg ∧ cfg.maxMessageSize = 10 := by
  refine ⟨rfl, rfl, ?_⟩
  exact (C4_threshold_validation optsTen rfl rfl).2.2.2 10 rfl (by decide)

/-- Claim C5 (evaluation at the failing input): a zero-length raw byte
buffer (`byteLength` 0, `length` 0, no `size`) makes `getBinarySizeInBytes`
return `undefined`, not 0; the total size of any message carrying such an
attribute is `NaN`, and a 12-byte body with threshold 10 then routes
DIRECT because `NaN > threshold` is false — the attribute does not
contribute 0 as the claim states, it disables the size check. -/
theorem C5_zero_length_buffer :
    getBinarySizeInBytes (.obj (some 0) (some 0) none) = none ∧
    getTotalMessageSize bigMsg (some [([97], emptyBufAttr)]) = .ok .nan ∧
    routedDirect
      (sendMessage cfgTen envOk 0 bigMsg (some [([97], emptyBufAttr)])) =
      true ∧
    getTotalMessageSize bigMsg (some []) = .ok (.num 12) ∧
    routedOffload (sendMessage cfgTen envOk 0 bigMsg (some [])) = true := by
  exact ⟨rfl, rfl, rfl, rfl, rfl⟩

/-- Claim C6: an attribute string value that is a single code point in the
three-byte UTF-8 range contributes 3 bytes (not its character count 1) to
the attribute size, and the total size adds it to the body's byte length;
a body consisting of that single code point likewise measures 3 bytes. -/
theorem C6_multibyte_sizing (c : Nat) (m : Message)
    (h1 : 0x800 ≤ c) (h2 : c < 0x10000) :
    getMessageAttributesSize [([], ⟨none, some [c], .undef⟩)] = .num 3 ∧
    getTotalMessageSize m (some [([], ⟨none, some [c], .undef⟩)]) =
      .ok (.num (getMessageSize m + 3)) ∧
    getMessageSize ⟨false, [c]⟩ = 3 ∧
    [c].length = 1 := by
  have hlen : utf8CharLen c = 3 := by
    unfold utf8CharLen
    rw [if_neg (by omega), if_neg (by omega), if_pos h2]
  have hattr :
      getMessageAttributesSize [([], ⟨none, some [c], .undef⟩)] = .num 3 := by
    simp [getMessageAttributesSize, attrEntrySize, getBinarySizeInBytes,
      getStringSizeInBytes, utf8Len, hlen, jAddOpt]
  refine ⟨hattr, ?_, ?_, rfl⟩
  · simp [getTotalMessageSize, hattr, jAddNat]
  · simp [getMessageSize, getStringSizeInBytes, utf8Len, hlen]

/-- Witness for C6 at the euro sign (code point 0x20AC, 3 UTF-8 bytes). -/
theorem C6_multibyte_sizing_witness :
    0x800 ≤ 0x20AC ∧ 0x20AC < 0x10000 ∧
    getMessageAttributesSize [([], ⟨none, some [0x20AC], .undef⟩)] =
      .num 3 := by
  refine ⟨by decide, by decide, ?_⟩
  exact (C6_multibyte_sizing 0x20AC msgX (by decide) (by decide)).1

/-- Claim C7: a falsy body fails with the missing-message input error, and
an attributes collection with more than 10 entries fails with the
too-many-attributes input error; both synchronously, with zero collaborator
invocations, for every configuration (hence on both paths). -/
theorem C7_input_validation (cfg : Config) (env : Env) (i : Nat)
    (m : Message) (attrs : Option Attrs) :
    (m.falsy = true →
      sendMessage cfg env i m attrs =
        { result := .error .inputMessageRequired,
          s3Calls := [], sqsCalls := [] }) ∧
    (∀ l : Attrs, attrs = some l → l.length > MAX_MESSAGE_ATTRIBUTES →
      m.falsy = false →
      sendMessage cfg env i m attrs =
        { result := .error .inputTooManyAttributes,
          s3Calls := [], sqsCalls := [] }) := by
  constructor
  · intro hm
    simp [sendMessage, hm]
  · intro l hl hgt hm
    simp [sendMessage, hm, hl, attrCount, hgt]

/-- Witness for C7: a falsy body is rejected under the always-offload
configuration, and eleven attributes are rejected under the direct-path
configuration, with no collaborator called in either case. -/
theorem C7_input_validation_witness :
    sendMessage cfgAlways envOk 0 ⟨true, []⟩ none =
      { result := .error .inputMessageRequired,
        s3Calls := [], sqsCalls := [] } ∧
    sendMessage cfgTen envOk 1 msgX (some attrs11) =
      { result := .error .inputTooManyAttributes,
        s3Calls := [], sqsCalls := [] } := by
  constructor
  · exact (C7_input_validation cfgAlways envOk 0 ⟨true, []⟩ none).1 rfl
  · exact (C7_input_validation cfgTen envOk 1 msgX (some attrs11)).2
      attrs11 rfl (by decide) rfl

/-- Claim C8: on one dispatcher whose uuid stream never repeats, two
distinct calls (any bodies, including identical ones) never write blobs
under the same object key — every offloaded object key is unique over the
dispatcher's lifetime. -/
theorem C8_unique_object_keys (cfg : Config) (env : Env) (i j : Nat)
    (m1 m2 : Message) (a1 a2 : Option Attrs)
    (hinj : Function.Injective env.keys) (hij : i ≠ j) :
    ∀ p1 ∈ (sendMessage cfg env i m1 a1).s3Calls,
    ∀ p2 ∈ (sendMessage cfg env j m2 a2).s3Calls,
      p1.Key ≠ p2.Key := by
  intro p1 hp1 p2 hp2
  rw [s3Put_key cfg env i m1 a1 p1 hp1, s3Put_key cfg env j m2 a2 p2 hp2]
  exact fun h => hij (hinj h)

/-- Witness for C8: two consecutive forced-offload calls with the identical
body `{x: 1}` write under the distinct keys drawn for call 0 and call 1. -/
theorem C8_unique_object_keys_witness :
    Function.Injective envOk.keys ∧ (0 : Nat) ≠ 1 ∧
    S3Put.Key ⟨none, [0], msgX.json⟩ ≠ S3Put.Key ⟨none, [1], msgX.json⟩ := by
  have hinj : Function.Injective envOk.keys := by
    intro a b h
    simpa [envOk] using h
  refine ⟨hinj, by decide, ?_⟩
  exact C8_unique_object_keys cfgAlways envOk 0 1 msgX msgX
    (some []) (some []) hinj (by decide)
    ⟨none, [0], msgX.json⟩ (by decide)
    ⟨none, [1], msgX.json⟩ (by decide)

/-- Claim C9: when no bucket was configured at construction, an
offload-path call raises no error in this core: the blob write and the
pointer message are issued with an absent bucket identifier. -/
theorem C9_absent_bucket (o : Options) (cfg : Config) (env : Env) (i : Nat)
    (m : Message) (attrs : Option Attrs) (v : Nat)
    (ho : construct o = .ok cfg) (hbn : o.bucketName = none)
    (hm : m.falsy = false) (hc : attrCount attrs ≤ MAX_MESSAGE_ATTRIBUTES)
    (hroute : cfg.alwaysS3 = true ∨ ∃ n : Nat,
      getTotalMessageSize m attrs = .ok (.num n) ∧
      cfg.maxMessageSize < (n : Int))
    (hs3 : env.s3Result i = .ok ()) (hsqs : env.sqsResult i = .ok v) :
    sendMessage cfg env i m attrs =
      { result := .ok v
        s3Calls := [⟨none, env.keys i, m.json⟩]
        sqsCalls :=
          [⟨cfg.queueUrl, .pointer none (env.keys i), attrs⟩] } := by
  have hcfgb : cfg.bucketName = none := by
    rw [construct_bucketName o cfg ho, hbn]
  rw [sendMessage_offload_eq cfg env i m attrs hm hc hroute]
  simp [sendThroughS3, hs3, hcfgb, sendToSQS, hsqs]

/-- Witness for C9: construction without a bucket plus a forced-offload
call issues the blob write and the pointer message with an absent bucket. -/
theorem C9_absent_bucket_witness :
    construct optsAlways = .ok cfgAlways ∧
    optsAlways.bucketName = none ∧
    sendMessage cfgAlways envOk 0 msgX (some []) =
      { result := .ok 0
        s3Calls := [⟨none, [0], msgX.json⟩]
        sqsCalls :=
          [⟨cfgAlways.queueUrl, .pointer none [0], some []⟩] } := by
  refine ⟨rfl, rfl, ?_⟩
  exact C9_absent_bucket optsAlways cfgAlways envOk 0 msgX (some []) 0
    rfl rfl rfl (by decide) (Or.inl rfl) rfl rfl

/-- Claim C10: when `alwaysS3` is set, a call with a present body and at
most 10 attributes behaves exactly as `_sendThroughS3` — the size
computation is never consulted — so it routes offload even for inputs on
which the size computation would throw (absent attributes). -/
theorem C10_force_offload_skips_sizing (cfg : Config) (env : Env) (i : Nat)
    (m : Message) (attrs : Option Attrs)
    (halw : cfg.alwaysS3 = true)
    (hm : m.falsy = false) (hc : attrCount attrs ≤ MAX_MESSAGE_ATTRIBUTES) :
    sendMessage cfg env i m attrs =
      sendThroughS3 cfg (env.keys i) (env.s3Result i) (env.sqsResult i)
        m attrs ∧
    routedOffload (sendMessage cfg env i m attrs) = true := by
  have h := sendMessage_offload_eq cfg env i m attrs hm hc (Or.inl halw)
  refine ⟨h, ?_⟩
  rw [h]
  exact routedOffload_sendThroughS3 ..

/-- Witness for C10 at an input whose size computation throws: attributes
absent entirely (`Object.keys(undefined)` would raise a `TypeError`), yet
the forced-offload call succeeds on the offload path. -/
theorem C10_force_offload_skips_sizing_witness :
    cfgAlways.alwaysS3 = true ∧
    msgX.falsy = false ∧
    getTotalMessageSize msgX none = .error () ∧
    routedOffload (sendMessage cfgAlways envOk 0 msgX none) = true := by
  refine ⟨rfl, rfl, rfl, ?_⟩
  exact (C10_force_offload_skips_sizing cfgAlways envOk 0 msgX none
    rfl rfl (by decide)).2

end SHL
